import Mathlib

/-!
Verification of the FLOAT inference HTTP service (`src/app.py`).

The service is a FastAPI wrapper around an external `InferenceAgent`: the
`/inference` handler checks that the agent is loaded (else 503), allocates a
scratch directory, stages the two uploads, computes an output video path from
the request parameters and a timestamp, invokes the agent, checks the
returned path exists (else an internal error), streams the file back, and
removes the scratch directory in a `finally` block whose own failure is only
logged.

This file embeds that handler shallowly.  External effects are made explicit
parameters: the timestamp string produced by `strftime`, the scratch
directory name returned by `mkdtemp`, the agent's behaviour (raise or return
a path, and whether that path exists on disk afterwards), and whether
`shutil.rmtree` fails.  Python `float` form fields are carried as their
`str()` renderings, since no claim depends on float arithmetic, only on the
interpolated text.  Python exception semantics relevant here are modelled
faithfully: `fastapi.HTTPException` is a subclass of `Exception`, so an
`HTTPException` raised inside the handler's `try` block is caught by the
`except Exception` clause and re-wrapped; `str()` of an `HTTPException` is
`"{status_code}: {detail}"` (Starlette's `__str__`).
-/

deriving instance DecidableEq for Except

namespace FloatApp

/-- Index of the last occurrence of `c` in a character list (the single-char
case of Python's `str.rfind`, with `none` for "not found" instead of `-1`). -/
def lastIdxOf (c : Char) : List Char → Option Nat
  | [] => none
  | a :: rest =>
    match lastIdxOf c rest with
    | some i => some (i + 1)
    | none => if a = c then some 0 else none

/-- POSIX `os.path.basename`: everything after the last `'/'`. -/
def os_path_basename (p : String) : String :=
  match lastIdxOf '/' p.data with
  | none => p
  | some i => String.mk (p.data.drop (i + 1))

/-- First component of POSIX `os.path.splitext` (CPython `posixpath._splitext`):
the path up to its last `'.'`, provided that dot lies inside the final path
component and is preceded there by at least one non-dot character (so leading
dots of the basename never start an extension). -/
def splitext_stem (p : String) : String :=
  match lastIdxOf '.' p.data with
  | none => p
  | some d =>
    let sepI : Nat :=
      match lastIdxOf '/' p.data with
      | none => 0
      | some i => i + 1
    if sepI ≤ d ∧ ((p.data.drop sepI).take (d - sepI)).any (fun ch => ch != '.') then
      String.mk (p.data.take d)
    else p

/-- POSIX `os.path.join` on two components: an absolute second component
replaces the first; otherwise the parts are glued with `'/'` unless the first
is empty or already ends in `'/'`. -/
def os_path_join (a b : String) : String :=
  if b.data.head? = some '/' then b
  else if a.data = [] ∨ a.data.getLast? = some '/' then a ++ b
  else a ++ "/" ++ b

/-- Form fields of one POST `/inference` request (`app.py` lines 56-65).
`ref_filename` and `audio_filename` are the client-supplied
`UploadFile.filename` values; `a_cfg_scale`, `r_cfg_scale`, `e_cfg_scale`
carry the `str()` rendering of the float form fields, which is all the
handler ever does with them (f-string interpolation). -/
structure Request where
  ref_filename : String
  audio_filename : String
  a_cfg_scale : String
  r_cfg_scale : String
  e_cfg_scale : String
  emo : Option String
  nfe : Int
  no_crop : Bool
  seed : Int
  deriving DecidableEq, Repr

/-- Observable behaviour of `agent.run_inference` on one call: either it
raises an exception with message `m` (`Except.error m`), or it returns a path
(`Except.ok path`); `resultExists` records whether `os.path.exists` holds for
the returned path after the call. -/
structure AgentBehavior where
  outcome : Except String String
  resultExists : Bool
  deriving DecidableEq, Repr

/-- HTTP outcome of the handler: an `HTTPException` carrying a status code
and a detail string, or a `FileResponse` with a path, media type and download
filename. -/
inductive Response where
  | httpError (statusCode : Nat) (detail : String)
  | fileResponse (path : String) (mediaType : String) (filename : String)
  deriving DecidableEq, Repr

/-- Everything observable about one run of the handler: the HTTP response,
whether the scratch directory was created and whether it still exists when
the handler finishes, whether and with which arguments the agent was invoked,
and the log lines printed. -/
structure RunResult where
  response : Response
  tempDirCreated : Bool
  tempDirExistsAfter : Bool
  agentCalled : Bool
  agentEmoArg : Option String
  agentResPathArg : Option String
  refStagedPath : Option String
  audioStagedPath : Option String
  logMessages : List String
  deriving DecidableEq, Repr

/-- Detail of the 503 raised when the agent is not yet loaded (line 85). -/
def detailNotLoaded : String := "모델이 아직 로드되지 않았습니다."

/-- Detail of the 500 raised when the output file is missing (line 132). -/
def detailGenerationFailed : String := "비디오 생성에 실패했습니다."

/-- Detail built by the catch-all `except Exception` clause (line 142):
`f"추론 중 오류 발생: {str(e)}"`. -/
def wrapDetail (m : String) : String := "추론 중 오류 발생: " ++ m

/-- Starlette's `HTTPException.__str__`: `f"{status_code}: {detail}"`.  Used
when the catch-all clause stringifies a caught `HTTPException`. -/
def strHTTPException (code : Nat) (detail : String) : String :=
  toString code ++ ": " ++ detail

/-- Log line printed when `shutil.rmtree` fails in the `finally` block
(line 149): `f"임시 디렉토리 삭제 실패: {e}"`. -/
def logRmtreeFail (m : String) : String := "임시 디렉토리 삭제 실패: " ++ m

/-- Python `emo if emo else 'S2E'` (lines 109 and 113): `None` and the empty
string are falsy, any other string is used verbatim. -/
def resolved_emotion : Option String → String
  | none => "S2E"
  | some e => if e = "" then "S2E" else e

/-- The f-string of line 109, with `video_name`/`audio_name` inlined as on
lines 104-105: `os.path.splitext(filename)[0]` of each upload's filename. -/
def output_filename (call_time : String) (req : Request) : String :=
  call_time ++ "-" ++ splitext_stem req.ref_filename ++ "-"
    ++ splitext_stem req.audio_filename
    ++ "-nfe" ++ toString req.nfe ++ "-seed" ++ toString req.seed
    ++ "-acfg" ++ req.a_cfg_scale ++ "-ecfg" ++ req.e_cfg_scale
    ++ "-" ++ resolved_emotion req.emo ++ ".mp4"

/-- `res_video_path` of lines 107-110: `os.path.join(agent.opt.res_dir, ...)`
applied to the interpolated filename. -/
def res_video_path (res_dir call_time : String) (req : Request) : String :=
  os_path_join res_dir (output_filename call_time req)

/-- The `/inference` handler (lines 55-149) as a function of its explicit
inputs: `agentLoaded` is `agent is not None`; `res_dir` is
`agent.opt.res_dir`; `call_time` is the `strftime` timestamp; `temp_dir` is
the directory returned by `tempfile.mkdtemp()`; `agent` is the behaviour of
`run_inference` on this call; `rmtreeFailure` is `none` when
`shutil.rmtree(temp_dir)` succeeds and `some m` when it raises with message
`m`.  The `HTTPException(500, ...)` raised on a missing output file is a
Python `Exception`, so it is caught by the `except Exception` clause and
re-wrapped via `str()`, exactly as the interpreter executes lines 130-142. -/
def inference (agentLoaded : Bool) (res_dir call_time temp_dir : String)
    (req : Request) (agent : AgentBehavior) (rmtreeFailure : Option String) :
    RunResult :=
  if agentLoaded then
    let ref_path := os_path_join temp_dir req.ref_filename
    let audio_path := os_path_join temp_dir req.audio_filename
    let path := res_video_path res_dir call_time req
    let emotion := resolved_emotion req.emo
    let response :=
      match agent.outcome with
      | .error m => Response.httpError 500 (wrapDetail m)
      | .ok result_path =>
        if agent.resultExists then
          Response.fileResponse result_path "video/mp4"
            (os_path_basename result_path)
        else
          Response.httpError 500
            (wrapDetail (strHTTPException 500 detailGenerationFailed))
    { response := response
      tempDirCreated := true
      tempDirExistsAfter := rmtreeFailure.isSome
      agentCalled := true
      agentEmoArg := some emotion
      agentResPathArg := some path
      refStagedPath := some ref_path
      audioStagedPath := some audio_path
      logMessages :=
        match rmtreeFailure with
        | none => []
        | some m => [logRmtreeFail m] }
  else
    { response := Response.httpError 503 detailNotLoaded
      tempDirCreated := false
      tempDirExistsAfter := false
      agentCalled := false
      agentEmoArg := none
      agentResPathArg := none
      refStagedPath := none
      audioStagedPath := none
      logMessages := [] }

/-- Modelled from the spec wording of claim C1 (not from the source): the
results directory joined with
`<timestamp>-<basename(R) without extension>-<basename(A) without
extension>-nfe<nfe>-seed<seed>-acfg<a>-ecfg<e>-<emo or S2E>.mp4`, where the
name components are the BASENAMES of the uploaded filenames with their
extension stripped.  The source instead strips the extension from the full
filename without taking its basename; the two differ whenever a filename
contains a path separator. -/
def specClaimedPath (res_dir call_time : String) (req : Request) : String :=
  os_path_join res_dir
    (call_time ++ "-" ++ splitext_stem (os_path_basename req.ref_filename)
      ++ "-" ++ splitext_stem (os_path_basename req.audio_filename)
      ++ "-nfe" ++ toString req.nfe ++ "-seed" ++ toString req.seed
      ++ "-acfg" ++ req.a_cfg_scale ++ "-ecfg" ++ req.e_cfg_scale
      ++ "-" ++ resolved_emotion req.emo ++ ".mp4")

/-- Emotion vocabulary documented on the `emo` form field (line 62). -/
def emotionVocabulary : List String :=
  ["angry", "disgust", "fear", "happy", "neutral", "sad", "surprise"]

/-- Concrete request whose filenames carry no path separator. -/
def plainRequest : Request :=
  { ref_filename := "face.jpg"
    audio_filename := "voice.wav"
    a_cfg_scale := "2.0"
    r_cfg_scale := "1.0"
    e_cfg_scale := "1.0"
    emo := none
    nfe := 10
    no_crop := false
    seed := 25 }

/-- Concrete request whose reference filename contains a path separator. -/
def slashRequest : Request :=
  { plainRequest with ref_filename := "d/b.jpg" }

/-- Tail of the interpolated filename after the timestamp component. -/
def filename_tail (req : Request) : String :=
  "-" ++ splitext_stem req.ref_filename ++ "-" ++ splitext_stem req.audio_filename
    ++ "-nfe" ++ toString req.nfe ++ "-seed" ++ toString req.seed
    ++ "-acfg" ++ req.a_cfg_scale ++ "-ecfg" ++ req.e_cfg_scale
    ++ "-" ++ resolved_emotion req.emo ++ ".mp4"

/-- A character absent from a list has no last occurrence. -/
theorem lastIdxOf_eq_none (c : Char) (s : List Char) (h : c ∉ s) :
    lastIdxOf c s = none := by
  induction s with
  | nil => rfl
  | cons a rest ih =>
    have hrest : c ∉ rest := fun hm => h (List.mem_cons_of_mem a hm)
    have hac : ¬ a = c := fun he => h (he ▸ List.mem_cons_self a rest)
    simp [lastIdxOf, ih hrest, hac]

/-- Without a separator, `os.path.basename` is the identity. -/
theorem os_path_basename_eq_self (p : String) (h : '/' ∉ p.data) :
    os_path_basename p = p := by
  simp [os_path_basename, lastIdxOf_eq_none '/' p.data h]

/-- `os.path.join` always keeps its second argument as a suffix. -/
theorem os_path_join_eq_append (a b : String) :
    ∃ p, os_path_join a b = p ++ b := by
  unfold os_path_join
  by_cases h1 : b.data.head? = some '/'
  · refine ⟨"", ?_⟩
    rw [if_pos h1]
    cases b with | mk l => rfl
  · rw [if_neg h1]
    by_cases h2 : a.data = [] ∨ a.data.getLast? = some '/'
    · exact ⟨a, by rw [if_pos h2]⟩
    · exact ⟨a ++ "/", by rw [if_neg h2]⟩

/-- The interpolated filename is the timestamp followed by a
timestamp-independent tail. -/
theorem output_filename_eq_tail (call_time : String) (req : Request) :
    output_filename call_time req = call_time ++ filename_tail req := by
  simp [output_filename, filename_tail, String.append_assoc]

/-- The computed output path ends with the resolved emotion label and
`.mp4`. -/
theorem res_video_path_emo_suffix (res_dir call_time : String) (req : Request) :
    ∃ q, res_video_path res_dir call_time req
      = q ++ "-" ++ resolved_emotion req.emo ++ ".mp4" := by
  obtain ⟨p, hp⟩ := os_path_join_eq_append res_dir (output_filename call_time req)
  refine ⟨p ++ (call_time ++ "-" ++ splitext_stem req.ref_filename ++ "-"
    ++ splitext_stem req.audio_filename ++ "-nfe" ++ toString req.nfe
    ++ "-seed" ++ toString req.seed ++ "-acfg" ++ req.a_cfg_scale
    ++ "-ecfg" ++ req.e_cfg_scale), ?_⟩
  rw [res_video_path, hp]
  simp [output_filename, String.append_assoc]

/-- Claim C1, as stated, fails on the code: with reference filename
`"d/b.jpg"` the handler embeds `os.path.splitext("d/b.jpg")[0] = "d/b"` in
the output path, not the basename without extension `"b"` that the claim
describes. -/
theorem C1_counterexample :
    res_video_path "results" "2025-01-01T00-00-00" slashRequest
      ≠ specClaimedPath "results" "2025-01-01T00-00-00" slashRequest := by
  decide

/-- Claim C1 (amended): the path the handler passes to the agent is the
results directory joined with the claimed pattern, except that each name
component is `os.path.splitext(filename)[0]` of the full client-supplied
filename rather than of its basename; whenever neither filename contains a
path separator the two coincide exactly as the claim states, and the path is
a pure function of the results directory, the timestamp and the request,
with the timestamp entering only as a prefix of the joined filename. -/
theorem C1_output_path (res_dir call_time temp_dir : String) (req : Request)
    (agent : AgentBehavior) (rm : Option String)
    (h1 : '/' ∉ req.ref_filename.data) (h2 : '/' ∉ req.audio_filename.data) :
    (inference true res_dir call_time temp_dir req agent rm).agentResPathArg
        = some (res_video_path res_dir call_time req)
    ∧ res_video_path res_dir call_time req
        = specClaimedPath res_dir call_time req
    ∧ ∀ t : String, res_video_path res_dir t req
        = os_path_join res_dir (t ++ filename_tail req) := by
  refine ⟨rfl, ?_, ?_⟩
  · simp [res_video_path, specClaimedPath, output_filename,
      os_path_basename_eq_self _ h1, os_path_basename_eq_self _ h2]
  · intro t
    rw [res_video_path, output_filename_eq_tail]

/-- Witness for C1: the no-separator hypotheses hold for a concrete request
and the amended statement follows there. -/
theorem C1_output_path_witness :
    '/' ∉ plainRequest.ref_filename.data
    ∧ '/' ∉ plainRequest.audio_filename.data
    ∧ ((inference true "results" "2025-01-01T00-00-00" "/tmp/t" plainRequest
          ⟨Except.ok "results/out.mp4", true⟩ none).agentResPathArg
        = some (res_video_path "results" "2025-01-01T00-00-00" plainRequest)
      ∧ res_video_path "results" "2025-01-01T00-00-00" plainRequest
          = specClaimedPath "results" "2025-01-01T00-00-00" plainRequest
      ∧ ∀ t : String, res_video_path "results" t plainRequest
          = os_path_join "results" (t ++ filename_tail plainRequest)) :=
  ⟨by decide, by decide,
    C1_output_path "results" "2025-01-01T00-00-00" "/tmp/t" plainRequest
      ⟨Except.ok "results/out.mp4", true⟩ none (by decide) (by decide)⟩

/-- Claim C2 evaluated at its failing input: when `run_inference` returns
but the output file is missing, the `HTTPException(500, detailGenerationFailed)`
raised on line 132 sits inside the `try` block, so the `except Exception`
clause of line 141 catches it and re-raises with the tier-3 wrapped detail
`"추론 중 오류 발생: 500: 비디오 생성에 실패했습니다."`.  The response is
therefore NOT the fixed message of line 132 that the claim describes, though
it is still a 500. -/
theorem C2_missing_output_detail_is_wrapped :
    (inference true "results" "2025-01-01T00-00-00" "/tmp/t" plainRequest
        ⟨Except.ok "results/out.mp4", false⟩ none).response
      = Response.httpError 500
          (wrapDetail (strHTTPException 500 detailGenerationFailed))
    ∧ wrapDetail (strHTTPException 500 detailGenerationFailed)
        ≠ detailGenerationFailed :=
  ⟨rfl, by decide⟩

/-- Claim C3: for every request that reaches scratch-directory allocation
(agent loaded), on every exit path — the agent raising, returning with the
file present, or returning with it absent, all covered by the quantified
agent behaviour — the scratch directory no longer exists after the handler
when `rmtree` succeeds; when `rmtree` fails, the failure is logged and the
HTTP response is exactly the one of the successful-cleanup run. -/
theorem C3_scratch_cleanup (res_dir call_time temp_dir : String)
    (req : Request) (agent : AgentBehavior) (m : String) :
    (inference true res_dir call_time temp_dir req agent none).tempDirExistsAfter
        = false
    ∧ (inference true res_dir call_time temp_dir req agent (some m)).response
        = (inference true res_dir call_time temp_dir req agent none).response
    ∧ (inference true res_dir call_time temp_dir req agent (some m)).logMessages
        = [logRmtreeFail m]
    ∧ (inference true res_dir call_time temp_dir req agent none).logMessages
        = [] :=
  ⟨rfl, rfl, rfl, rfl⟩

/-- Claim C4: when `emo` is absent or the empty string the resolved label is
the literal `"S2E"`, and that label is both passed to the agent and embedded
in the output filename right before `.mp4`; any non-empty `emo` is used
verbatim in both places. -/
theorem C4_emotion_fallback (res_dir call_time temp_dir : String)
    (req : Request) (agent : AgentBehavior) (rm : Option String)
    (s : String) (hs : s ≠ "") :
    ((inference true res_dir call_time temp_dir { req with emo := none }
          agent rm).agentEmoArg = some "S2E"
      ∧ ∃ q, (inference true res_dir call_time temp_dir { req with emo := none }
          agent rm).agentResPathArg = some (q ++ "-" ++ "S2E" ++ ".mp4"))
    ∧ ((inference true res_dir call_time temp_dir { req with emo := some "" }
          agent rm).agentEmoArg = some "S2E"
      ∧ ∃ q, (inference true res_dir call_time temp_dir { req with emo := some "" }
          agent rm).agentResPathArg = some (q ++ "-" ++ "S2E" ++ ".mp4"))
    ∧ ((inference true res_dir call_time temp_dir { req with emo := some s }
          agent rm).agentEmoArg = some s
      ∧ ∃ q, (inference true res_dir call_time temp_dir { req with emo := some s }
          agent rm).agentResPathArg = some (q ++ "-" ++ s ++ ".mp4")) := by
  refine ⟨⟨rfl, ?_⟩, ⟨rfl, ?_⟩, ⟨?_, ?_⟩⟩
  · obtain ⟨q, hq⟩ :=
      res_video_path_emo_suffix res_dir call_time { req with emo := none }
    refine ⟨q, ?_⟩
    show some (res_video_path res_dir call_time { req with emo := none }) = _
    rw [hq]
    rfl
  · obtain ⟨q, hq⟩ :=
      res_video_path_emo_suffix res_dir call_time { req with emo := some "" }
    refine ⟨q, ?_⟩
    show some (res_video_path res_dir call_time { req with emo := some "" }) = _
    rw [hq]
    rfl
  · show some (resolved_emotion (some s)) = some s
    simp [resolved_emotion, hs]
  · obtain ⟨q, hq⟩ :=
      res_video_path_emo_suffix res_dir call_time { req with emo := some s }
    refine ⟨q, ?_⟩
    show some (res_video_path res_dir call_time { req with emo := some s }) = _
    rw [hq]
    simp [resolved_emotion, hs]

/-- Witness for C4 at `emo = "happy"` on a concrete request. -/
theorem C4_emotion_fallback_witness :
    ("happy" : String) ≠ ""
    ∧ (((inference true "results" "t" "/tmp/t" { plainRequest with emo := none }
          ⟨Except.ok "o", true⟩ none).agentEmoArg = some "S2E"
      ∧ ∃ q, (inference true "results" "t" "/tmp/t" { plainRequest with emo := none }
          ⟨Except.ok "o", true⟩ none).agentResPathArg
            = some (q ++ "-" ++ "S2E" ++ ".mp4"))
    ∧ ((inference true "results" "t" "/tmp/t" { plainRequest with emo := some "" }
          ⟨Except.ok "o", true⟩ none).agentEmoArg = some "S2E"
      ∧ ∃ q, (inference true "results" "t" "/tmp/t" { plainRequest with emo := some "" }
          ⟨Except.ok "o", true⟩ none).agentResPathArg
            = some (q ++ "-" ++ "S2E" ++ ".mp4"))
    ∧ ((inference true "results" "t" "/tmp/t" { plainRequest with emo := some "happy" }
          ⟨Except.ok "o", true⟩ none).agentEmoArg = some "happy"
      ∧ ∃ q, (inference true "results" "t" "/tmp/t" { plainRequest with emo := some "happy" }
          ⟨Except.ok "o", true⟩ none).agentResPathArg
            = some (q ++ "-" ++ "happy" ++ ".mp4"))) :=
  ⟨by decide,
    C4_emotion_fallback "results" "t" "/tmp/t" plainRequest
      ⟨Except.ok "o", true⟩ none "happy" (by decide)⟩

/-- Claim C5: while the agent is uninitialized every request is rejected
with a 503 whose detail is the model-not-loaded message, and the agent's
inference operation is never invoked. -/
theorem C5_not_ready (res_dir call_time temp_dir : String) (req : Request)
    (agent : AgentBehavior) (rm : Option String) :
    (inference false res_dir call_time temp_dir req agent rm).response
        = Response.httpError 503 detailNotLoaded
    ∧ (inference false res_dir call_time temp_dir req agent rm).agentCalled
        = false :=
  ⟨rfl, rfl⟩

/-- Claim C6: when the agent call raises with message `m`, the response is a
500 whose detail contains `m` (it is `wrapDetail m`, which has `m` as a
suffix), and with a succeeding `rmtree` the scratch directory is removed. -/
theorem C6_agent_exception (res_dir call_time temp_dir : String)
    (req : Request) (m : String) (b : Bool) (rm : Option String) :
    (inference true res_dir call_time temp_dir req ⟨Except.error m, b⟩ rm).response
        = Response.httpError 500 (wrapDetail m)
    ∧ (∃ q, wrapDetail m = q ++ m)
    ∧ (inference true res_dir call_time temp_dir req
        ⟨Except.error m, b⟩ none).tempDirExistsAfter = false :=
  ⟨rfl, ⟨"추론 중 오류 발생: ", rfl⟩, rfl⟩

/-- Claim C7: when the agent returns a path and that path exists, the
response is a file response for that path with media type `video/mp4` and a
download filename equal to the base name of the returned path. -/
theorem C7_success_response (res_dir call_time temp_dir : String)
    (req : Request) (p : String) (rm : Option String) :
    (inference true res_dir call_time temp_dir req ⟨Except.ok p, true⟩ rm).response
      = Response.fileResponse p "video/mp4" (os_path_basename p) :=
  rfl

/-- Claim C8: a request rejected with 503 because the agent is uninitialized
creates no scratch directory and stages no file: the not-ready check of line
84 precedes the `mkdtemp` of line 88. -/
theorem C8_not_ready_leaves_fs (res_dir call_time temp_dir : String)
    (req : Request) (agent : AgentBehavior) (rm : Option String) :
    (inference false res_dir call_time temp_dir req agent rm).tempDirCreated = false
    ∧ (inference false res_dir call_time temp_dir req agent rm).tempDirExistsAfter = false
    ∧ (inference false res_dir call_time temp_dir req agent rm).refStagedPath = none
    ∧ (inference false res_dir call_time temp_dir req agent rm).audioStagedPath = none :=
  ⟨rfl, rfl, rfl, rfl⟩

/-- Claim C9: neither `r_cfg_scale` nor `no_crop` enters the output path
computation: a request differing only in those two fields yields the
identical path, both in the path formula and in the argument the handler
passes to the agent. -/
theorem C9_path_ignores_rcfg_nocrop (res_dir call_time temp_dir : String)
    (req : Request) (agent : AgentBehavior) (rm : Option String)
    (r : String) (nc : Bool) :
    res_video_path res_dir call_time { req with r_cfg_scale := r, no_crop := nc }
        = res_video_path res_dir call_time req
    ∧ (inference true res_dir call_time temp_dir
          { req with r_cfg_scale := r, no_crop := nc } agent rm).agentResPathArg
        = (inference true res_dir call_time temp_dir req agent rm).agentResPathArg :=
  ⟨rfl, rfl⟩

/-- Claim C10: any non-empty `emo` string is accepted — no check against the
documented emotion vocabulary occurs anywhere in the handler, so the
statement holds with no membership hypothesis — and it is passed verbatim to
the agent and embedded verbatim in the output filename. -/
theorem C10_emo_unvalidated (res_dir call_time temp_dir : String)
    (req : Request) (agent : AgentBehavior) (rm : Option String)
    (s : String) (hs : s ≠ "") :
    (inference true res_dir call_time temp_dir { req with emo := some s }
        agent rm).agentCalled = true
    ∧ (inference true res_dir call_time temp_dir { req with emo := some s }
        agent rm).agentEmoArg = some s
    ∧ ∃ q, (inference true res_dir call_time temp_dir { req with emo := some s }
        agent rm).agentResPathArg = some (q ++ "-" ++ s ++ ".mp4") := by
  refine ⟨rfl, ?_, ?_⟩
  · show some (resolved_emotion (some s)) = some s
    simp [resolved_emotion, hs]
  · obtain ⟨q, hq⟩ :=
      res_video_path_emo_suffix res_dir call_time { req with emo := some s }
    refine ⟨q, ?_⟩
    show some (res_video_path res_dir call_time { req with emo := some s }) = _
    rw [hq]
    simp [resolved_emotion, hs]

/-- Witness for C10 at the concrete label `"bogus"`, which is outside the
documented emotion vocabulary and is nevertheless accepted and passed
through. -/
theorem C10_emo_unvalidated_witness :
    "bogus" ∉ emotionVocabulary
    ∧ ("bogus" : String) ≠ ""
    ∧ ((inference true "results" "t" "/tmp/t" { plainRequest with emo := some "bogus" }
          ⟨Except.ok "o", true⟩ none).agentCalled = true
      ∧ (inference true "results" "t" "/tmp/t" { plainRequest with emo := some "bogus" }
          ⟨Except.ok "o", true⟩ none).agentEmoArg = some "bogus"
      ∧ ∃ q, (inference true "results" "t" "/tmp/t" { plainRequest with emo := some "bogus" }
          ⟨Except.ok "o", true⟩ none).agentResPathArg
            = some (q ++ "-" ++ "bogus" ++ ".mp4")) :=
  ⟨by decide, by decide,
    C10_emo_unvalidated "results" "t" "/tmp/t" plainRequest
      ⟨Except.ok "o", true⟩ none "bogus" (by decide)⟩

end FloatApp
